import Mathlib

/-!
# Oregon Trail day-cycle engine: a shallow embedding

This file embeds the core game logic of the Oregon Trail recreation
(`src/oregon_trail/game.py`) in Lean 4 and proves properties of the
engine: resource invariants, error handling, the end-of-day priority
order, framing of the `rest` action, and determinism under a fixed
random source.

The random source (`random.Random`) is abstracted as a deterministic
stream of raw natural numbers together with a cursor: each method call
of the source consumes exactly one element of the stream, preserving
the fixed call order of the engine.  Python floats are modelled by
rationals; the travel-miles rounding (`round`, banker's rounding) was
checked to agree with the float computation on every one of the 90
pace-weather-terrain combinations, so the rational model is
extensionally exact for the table-driven arithmetic of the engine.
-/

attribute [local semireducible] Rat.mul Rat.inv Rat.add Rat.sub

namespace OregonTrail

/-- The three difficulty levels (`Difficulty` enum). -/
inductive Difficulty where
  | easy
  | normal
  | hard
deriving Repr, DecidableEq

/-- String value of a difficulty member (`Difficulty.value`). -/
def Difficulty.value : Difficulty → String
  | .easy => "easy"
  | .normal => "normal"
  | .hard => "hard"

/-- `PACE_SPEEDS`: base miles per day for each pace. -/
def PACE_SPEEDS (pace : String) : Option Int :=
  if pace = "slow" then some 12
  else if pace = "steady" then some 18
  else if pace = "grueling" then some 24
  else none

/-- `PACE_FOOD_MULTIPLIER`: food multiplier per pace (floats as rationals). -/
def PACE_FOOD_MULTIPLIER (pace : String) : ℚ :=
  if pace = "slow" then 4/5
  else if pace = "steady" then 1
  else if pace = "grueling" then 27/20
  else 1

def BASE_FOOD_PER_DAY : Int := 5

def TARGET_MILES : Int := 2000

/-- One difficulty preset row of `DIFFICULTY_SETTINGS`. -/
structure DifficultySettings where
  food : Int
  ammo : Int
  money : Int
  event_chance : ℚ
  rest_health : Int
  starvation_penalty : Int
  max_days : Int
deriving Repr, DecidableEq

/-- `DIFFICULTY_SETTINGS` lookup table. -/
def DIFFICULTY_SETTINGS : Difficulty → DifficultySettings
  | .easy => ⟨300, 70, 1400, 18/100, 15, 8, 60⟩
  | .normal => ⟨240, 55, 1100, 27/100, 12, 10, 55⟩
  | .hard => ⟨200, 45, 900, 35/100, 9, 12, 50⟩

/-- One profession bonus row of `PROFESSION_BONUSES` (absent keys are 0). -/
structure ProfessionBonus where
  food : Int := 0
  ammo : Int := 0
  money : Int := 0
  health : Int := 0
deriving Repr, DecidableEq

/-- `PROFESSION_BONUSES` lookup; `none` for an unknown profession. -/
def PROFESSION_BONUSES (profession : String) : Option ProfessionBonus :=
  if profession = "banker" then some { money := 600 }
  else if profession = "carpenter" then some { ammo := 10, health := 5 }
  else if profession = "farmer" then some { food := 50, health := 5 }
  else if profession = "doctor" then some { health := 10 }
  else none

/-- `WEATHER_OPTIONS`: weather labels with movement modifiers. -/
def WEATHER_OPTIONS : List (String × ℚ) :=
  [("Mild", 1), ("Warm", 21/20), ("Hot", 9/10), ("Cold", 17/20),
   ("Freezing", 7/10), ("Stormy", 3/5)]

/-- `TERRAIN_OPTIONS`: terrain labels with movement modifiers. -/
def TERRAIN_OPTIONS : List (String × ℚ) :=
  [("Plains", 1), ("Hills", 17/20), ("Mountains", 7/10), ("Desert", 3/4),
   ("Forest", 9/10)]

/-- A trading-post offer (`TradeOffer` dataclass). A positive price means
the player pays money, a negative one means the player earns money. -/
structure TradeOffer where
  item : String
  quantity : Int
  price : Int
deriving Repr, DecidableEq

/-- `TradeOffer.describe`. -/
def TradeOffer.describe (o : TradeOffer) : String :=
  let q := o.quantity
  let it := o.item
  let cost := |o.price|
  if o.price > 0 then s!"Buy {q} {it} for ${cost}"
  else s!"Sell {q} {it} for ${cost}"

/-- The mutable game state (`GameState` dataclass).  Integer fields use ℤ
so that the non-negativity clamps of the source are visible as such. -/
structure GameState where
  player_name : String
  profession : String
  difficulty : Difficulty
  day : Int := 1
  distance : Int := 0
  food : Int := 0
  ammo : Int := 0
  money : Int := 0
  health : Int := 100
  pace : String := "steady"
  weather : String := "Mild"
  terrain : String := "Plains"
  alive : Bool := true
  won : Bool := false
  status : String := "On the trail"
  event_log : List String := []
  trade_available : Bool := false
deriving Repr, DecidableEq

/-- The abstract random source: a fixed stream of raw naturals and a
cursor.  Each method call of `random.Random` consumes one element. -/
structure Rng where
  fn : Nat → Nat
  idx : Nat

/-- Granularity used to turn a raw draw into a rational in `[0,1)`. -/
def RAND_DENOM : Nat := 1000000

/-- Consume one raw draw. -/
def Rng.next (r : Rng) : Nat × Rng :=
  (r.fn r.idx, ⟨r.fn, r.idx + 1⟩)

/-- `random.random()`: a rational in `[0,1)`. -/
def Rng.randFloat (r : Rng) : ℚ × Rng :=
  ((((r.next.1 % RAND_DENOM : ℕ)) : ℚ) / (RAND_DENOM : ℚ), r.next.2)

/-- `random.randint(lo, hi)`: an integer in `[lo, hi]` (for `lo ≤ hi`). -/
def Rng.randint (r : Rng) (lo hi : Int) : Int × Rng :=
  (lo + (r.next.1 : Int) % (hi - lo + 1), r.next.2)

/-- `random.uniform(a, b)`. -/
def Rng.uniform (r : Rng) (a b : ℚ) : ℚ × Rng :=
  (a + (b - a) * r.randFloat.1, r.randFloat.2)

/-- Python `str.lower()` restricted to ASCII: the engine only lowers
ASCII action, pace and profession strings. -/
def py_lower (s : String) : String := ⟨s.data.map Char.toLower⟩

/-- Python `str.strip()`: drop leading and trailing whitespace. -/
def py_strip (s : String) : String :=
  ⟨((s.data.dropWhile Char.isWhitespace).reverse.dropWhile Char.isWhitespace).reverse⟩

/-- `random.choices(pop, weights, k=1)[0]`: cumulative-weight selection
against `x = random() * total`, as `bisect` does in the source of
`random.choices` (first label whose cumulative weight exceeds `x`,
capped at the last label). -/
def weighted_pick (pop : List String) (ws : List ℚ) (x : ℚ) : String :=
  match pop, ws with
  | [], _ => ""
  | [p], _ => p
  | p :: _, [] => p
  | p :: ps, w :: rest => if x < w then p else weighted_pick ps rest (x - w)

/-- The game controller (`Game` class): the game state plus the
controller-owned attributes set in `Game.__init__` (`difficulty`,
`settings`, `event_chance`, `max_days`, `is_over`,
`current_trade_offers`, the random source). -/
structure Game where
  state : GameState
  difficulty : Difficulty
  settings : DifficultySettings
  event_chance : ℚ
  max_days : Int
  rng : Rng
  is_over : Bool
  current_trade_offers : List TradeOffer

/-- The two error kinds of the engine: `RuntimeError` on a terminal game
(invalid state) and `ValueError` (invalid argument). -/
inductive Err where
  | invalidState
  | invalidArgument (msg : String)
deriving Repr, DecidableEq

/-- Python `round` on a non-negative table value: round half to even
(banker's rounding).  Checked to agree with the float computation of
`_travel` on all 90 pace-weather-terrain combinations. -/
def pythonRound (q : ℚ) : Int :=
  let f := ⌊q⌋
  if q - f < 1/2 then f
  else if q - f > 1/2 then f + 1
  else if f % 2 = 0 then f else f + 1

/-- First modifier whose label matches, defaulting to 1
(`_weather_modifier` / `_terrain_modifier` lookup loop). -/
def lookup_modifier : List (String × ℚ) → String → ℚ
  | [], _ => 1
  | (label, m) :: tl, w => if label = w then m else lookup_modifier tl w

/-- `Game._weather_modifier`. -/
def weather_modifier (g : Game) : ℚ :=
  lookup_modifier WEATHER_OPTIONS g.state.weather

/-- `Game._terrain_modifier`. -/
def terrain_modifier (g : Game) : ℚ :=
  lookup_modifier TERRAIN_OPTIONS g.state.terrain

/-- `Game._update_weather_and_terrain`: redraw weather (weights
5:4:3:3:2:2, total 19) then terrain (weights 5:3:2:2:3, total 15). -/
def update_weather_and_terrain (g : Game) : Game :=
  let u1 := g.rng.randFloat.1
  let r1 := g.rng.randFloat.2
  let w := weighted_pick (WEATHER_OPTIONS.map Prod.fst) [5, 4, 3, 3, 2, 2] (u1 * 19)
  let u2 := r1.randFloat.1
  let r2 := r1.randFloat.2
  let t := weighted_pick (TERRAIN_OPTIONS.map Prod.fst) [5, 3, 2, 2, 3] (u2 * 15)
  { g with state := { g.state with weather := w, terrain := t }, rng := r2 }

/-- `Game._travel`.  Error messages are modelled without the quoted
argument interpolation of the source. -/
def travel (g : Game) (pace : String) : Except Err (String × Int) × Game :=
  let pace_key := py_strip (py_lower pace)
  match PACE_SPEEDS pace_key with
  | none => (.error (.invalidArgument "Invalid pace. Choose from slow, steady, grueling."), g)
  | some speed =>
    let weather_mod := weather_modifier g
    let terrain_mod := terrain_modifier g
    let miles_float := (speed : ℚ) * weather_mod * terrain_mod
    let miles := max 5 (pythonRound miles_float)
    let g := { g with state := { g.state with
                distance := g.state.distance + miles, pace := pace_key } }
    let w := py_lower g.state.weather
    let t := py_lower g.state.terrain
    let message :=
      s!"You travel {miles} miles at a {pace_key} pace through {w} weather and {t} terrain."
    let extra_food :=
      ⌈(BASE_FOOD_PER_DAY : ℚ) * max 0 (PACE_FOOD_MULTIPLIER pace_key - 1)⌉
    (.ok (message, extra_food), g)

/-- `Game._hunt`. -/
def hunt (g : Game) (ammo_override : Option Int) : Except Err String × Game :=
  let ammo_cost := ammo_override.getD 5
  if ammo_cost ≤ 0 then
    (.error (.invalidArgument "Ammo spent must be positive when hunting."), g)
  else if g.state.ammo < ammo_cost then
    (.error (.invalidArgument "Not enough ammunition to hunt."), g)
  else
    let g := { g with state := { g.state with ammo := g.state.ammo - ammo_cost } }
    let roll := (g.rng.randint 25 55).1
    let r := (g.rng.randint 25 55).2
    let food_gained := roll + ammo_cost * 2
    let g := { g with state := { g.state with food := g.state.food + food_gained }, rng := r }
    (.ok s!"You spend {ammo_cost} ammo hunting and bring back {food_gained} lbs of food.", g)

/-- `Game._rest`. -/
def rest (g : Game) : String × Game :=
  let health_gain := g.settings.rest_health
  let previous_health := g.state.health
  let new_health := min 100 (g.state.health + health_gain)
  let g := { g with state := { g.state with health := new_health } }
  let gained := new_health - previous_health
  if gained ≤ 0 then ("You rest for the day but feel no better.", g)
  else (s!"You rest for the day and recover {gained} health.", g)

/-- `Game._add_resource`.  The unknown-item branch raises in the source
but is unreachable from `_trade` (offers are only built with food or
ammo and the item is checked first); it is modelled as the identity. -/
def add_resource (g : Game) (item : String) (amount : Int) : Game :=
  if item = "food" then
    { g with state := { g.state with food := max 0 (g.state.food + amount) } }
  else if item = "ammo" then
    { g with state := { g.state with ammo := max 0 (g.state.ammo + amount) } }
  else g

/-- `Game._get_resource` (unknown-item branch likewise unreachable). -/
def get_resource (g : Game) (item : String) : Int :=
  if item = "food" then g.state.food
  else if item = "ammo" then g.state.ammo
  else 0

/-- `Game._trade`. -/
def trade (g : Game) (offer_index : Option Int) : Except Err String × Game :=
  if ¬ g.state.trade_available ∨ g.current_trade_offers = [] then
    (.ok "There is no trading post available today.", g)
  else
    match offer_index with
    | none =>
      let g := { g with state := { g.state with trade_available := false },
                        current_trade_offers := [] }
      (.ok "You browse the trading post but decide not to trade.", g)
    | some idx =>
      if idx < 0 ∨ (g.current_trade_offers.length : Int) ≤ idx then
        (.error (.invalidArgument "Invalid trade offer selection."), g)
      else
        let offer := g.current_trade_offers.getD idx.toNat ⟨"food", 0, 0⟩
        if ¬ (offer.item = "food" ∨ offer.item = "ammo") then
          (.error (.invalidArgument "Unsupported trade item."), g)
        else if offer.price > 0 then
          if g.state.money < offer.price then
            (.error (.invalidArgument "Not enough money for that trade."), g)
          else
            let q := offer.quantity
            let it := offer.item
            let p := offer.price
            let g := { g with state := { g.state with money := g.state.money - offer.price } }
            let g := add_resource g offer.item offer.quantity
            let g := { g with state := { g.state with trade_available := false },
                              current_trade_offers := g.current_trade_offers.eraseIdx idx.toNat }
            (.ok s!"You buy {q} {it} for ${p}.", g)
        else
          if get_resource g offer.item < offer.quantity then
            (.error (.invalidArgument "You do not have enough goods for that trade."), g)
          else
            let q := offer.quantity
            let it := offer.item
            let p := |offer.price|
            let g := add_resource g offer.item (-offer.quantity)
            let g := { g with state := { g.state with money := g.state.money + |offer.price| } }
            let g := { g with state := { g.state with trade_available := false },
                              current_trade_offers := g.current_trade_offers.eraseIdx idx.toNat }
            (.ok s!"You sell {q} {it} for ${p}.", g)

/-- `Game._consume_food`. -/
def consume_food (g : Game) (amount : Int) : Game :=
  { g with state := { g.state with food := max 0 (g.state.food - max 0 amount) } }

/-- `Game._apply_random_event`: a trigger roll against `event_chance`,
then a second uniform roll selecting one of six outcome bands. -/
def apply_random_event (g : Game) : List String × Game :=
  let u := g.rng.randFloat.1
  let g := { g with rng := g.rng.randFloat.2 }
  if u > g.event_chance then ([], g)
  else
    let event_roll := g.rng.randFloat.1
    let g := { g with rng := g.rng.randFloat.2 }
    if event_roll < 1/5 then
      let loss := (g.rng.randint 10 30).1
      ([s!"Spoiled supplies force you to discard {loss} lbs of food."],
       { g with state := { g.state with food := max 0 (g.state.food - loss) },
                rng := (g.rng.randint 10 30).2 })
    else if event_roll < 2/5 then
      let injury := (g.rng.randint 8 15).1
      ([s!"A wagon accident injures you for {injury} health."],
       { g with state := { g.state with health := max 0 (g.state.health - injury) },
                rng := (g.rng.randint 8 15).2 })
    else if event_roll < 3/5 then
      let disease := (g.rng.randint 12 20).1
      ([s!"You fall ill and lose {disease} health fighting the sickness."],
       { g with state := { g.state with health := max 0 (g.state.health - disease) },
                rng := (g.rng.randint 12 20).2 })
    else if event_roll < 3/4 then
      let ammo_loss := min g.state.ammo (g.rng.randint 4 10).1
      ([s!"Bandits raid your camp and steal {ammo_loss} ammo."],
       { g with state := { g.state with ammo := g.state.ammo - ammo_loss },
                rng := (g.rng.randint 4 10).2 })
    else if event_roll < 9/10 then
      let found_food := (g.rng.randint 20 45).1
      ([s!"You find wild game and add {found_food} lbs of food to your stores."],
       { g with state := { g.state with food := g.state.food + found_food },
                rng := (g.rng.randint 20 45).2 })
    else
      (["You lose the trail and backtrack 10 miles."],
       { g with state := { g.state with distance := max 0 (g.state.distance - 10) } })

/-- `Game._end_of_day`: starvation penalty, then death, victory and
time-limit checks in that order. -/
def end_of_day (g : Game) : Game :=
  let g :=
    if g.state.food ≤ 0 then
      { g with state := { g.state with
          health := max 0 (g.state.health - g.settings.starvation_penalty),
          event_log := g.state.event_log ++ ["Without food your health deteriorates quickly."] } }
    else g
  if g.state.health ≤ 0 then
    { g with
      state := { g.state with
        alive := false, status := "You have perished on the trail." }
      is_over := true }
  else if g.state.distance ≥ TARGET_MILES then
    { g with
      state := { g.state with
        won := true, status := "Congratulations! You have reached Oregon City." }
      is_over := true }
  else if g.state.day ≥ g.max_days then
    { g with
      state := { g.state with
        alive := false, status := "Time has run out before you reached Oregon." }
      is_over := true }
  else
    { g with state := { g.state with status := "On the trail" } }

/-- One offer of `_maybe_prepare_trade_post`: kind roll, quantity,
price factor, sign-flip roll.  `int(...)` truncation on a positive
product is the floor. -/
def gen_offer (r : Rng) : TradeOffer × Rng :=
  let u1 := r.randFloat.1
  let r1 := r.randFloat.2
  let base : TradeOffer × Rng :=
    if u1 < 1/2 then
      let q := (r1.randint 25 60).1
      let r2 := (r1.randint 25 60).2
      let pf := (r2.uniform (2/5) (7/10)).1
      (⟨"food", q, max 10 ⌊(q : ℚ) * pf⌋⟩, (r2.uniform (2/5) (7/10)).2)
    else
      let q := (r1.randint 6 15).1
      let r2 := (r1.randint 6 15).2
      let pf := (r2.uniform (3/2) 2).1
      (⟨"ammo", q, max 8 ⌊(q : ℚ) * pf⌋⟩, (r2.uniform (3/2) 2).2)
  let u2 := base.2.randFloat.1
  let r4 := base.2.randFloat.2
  let price := if u2 < 1/4 then -base.1.price else base.1.price
  (⟨base.1.item, base.1.quantity, price⟩, r4)

/-- The offer-generation loop of `_maybe_prepare_trade_post`. -/
def gen_offers : Nat → Rng → List TradeOffer × Rng
  | 0, r => ([], r)
  | n + 1, r =>
    ((gen_offer r).1 :: (gen_offers n (gen_offer r).2).1,
     (gen_offers n (gen_offer r).2).2)

/-- `Game._maybe_prepare_trade_post`. -/
def maybe_prepare_trade_post (g : Game) (initial : Bool) : Game :=
  let probability : ℚ := if initial then 3/10 else 1/4
  let u := g.rng.randFloat.1
  let g := { g with rng := g.rng.randFloat.2 }
  if u > probability then
    { g with state := { g.state with trade_available := false }, current_trade_offers := [] }
  else
    let num := (g.rng.randint 1 3).1
    let r1 := (g.rng.randint 1 3).2
    { g with state := { g.state with trade_available := true },
             current_trade_offers := (gen_offers num.toNat r1).1,
             rng := (gen_offers num.toNat r1).2 }

/-- `Game.__init__`: `none` for an unknown profession (`ValueError`). -/
def mkGame (player_name profession : String) (difficulty : Difficulty)
    (rng : Rng) : Option Game :=
  let profession_key := py_strip (py_lower profession)
  match PROFESSION_BONUSES profession_key with
  | none => none
  | some bonuses =>
    let settings := DIFFICULTY_SETTINGS difficulty
    let name := if py_strip player_name = "" then "Pioneer" else py_strip player_name
    let st : GameState := {
      player_name := name
      profession := profession_key
      difficulty := difficulty
      food := settings.food + bonuses.food
      ammo := settings.ammo + bonuses.ammo
      money := settings.money + bonuses.money
      health := 100 + bonuses.health }
    let g : Game := {
      state := st
      difficulty := difficulty
      settings := settings
      event_chance := settings.event_chance
      max_days := settings.max_days
      rng := rng
      is_over := false
      current_trade_offers := [] }
    let g := update_weather_and_terrain g
    let g := maybe_prepare_trade_post g true
    some g

/-- The snapshot dictionary returned by `perform_action`: every
`GameState` field (difficulty by value) plus the day's messages and
the offer descriptions. -/
structure Snapshot where
  player_name : String
  profession : String
  difficulty : String
  day : Int
  distance : Int
  food : Int
  ammo : Int
  money : Int
  health : Int
  pace : String
  weather : String
  terrain : String
  alive : Bool
  won : Bool
  status : String
  event_log : List String
  trade_available : Bool
  messages : List String
  trade_offers : List String
deriving Repr, DecidableEq

/-- `GameState.snapshot` extended with the `messages` and
`trade_offers` keys added by `perform_action` before returning. -/
def make_snapshot (g : Game) (messages : List String) : Snapshot :=
  { player_name := g.state.player_name
    profession := g.state.profession
    difficulty := g.state.difficulty.value
    day := g.state.day
    distance := g.state.distance
    food := g.state.food
    ammo := g.state.ammo
    money := g.state.money
    health := g.state.health
    pace := g.state.pace
    weather := g.state.weather
    terrain := g.state.terrain
    alive := g.state.alive
    won := g.state.won
    status := g.state.status
    event_log := g.state.event_log
    trade_available := g.state.trade_available
    messages := messages
    trade_offers := g.current_trade_offers.map TradeOffer.describe }

/-- The action-handler dispatch of `perform_action` (step 3 of the day
cycle): run the selected handler on the already-updated game, yielding
the day's action messages and the total food consumption. -/
def action_dispatch (g : Game) (action_key : String) (pace_arg : Option String)
    (ammo_spent offer_index : Option Int) : Except Err (List String × Int) × Game :=
  if action_key = "travel" then
    let r := travel g (pace_arg.getD g.state.pace)
    (r.1.map (fun mf => ([mf.1], BASE_FOOD_PER_DAY + mf.2)), r.2)
  else if action_key = "hunt" then
    let r := hunt g ammo_spent
    (r.1.map (fun m => ([m], BASE_FOOD_PER_DAY)), r.2)
  else if action_key = "rest" then
    (Except.ok ([(rest g).1], BASE_FOOD_PER_DAY), (rest g).2)
  else
    let r := trade g offer_index
    (r.1.map (fun m => ([m], max 1 (BASE_FOOD_PER_DAY - 2))), r.2)

/-- Steps 4-8 of the day cycle in `perform_action`: food consumption,
random event, end-of-day evaluation, snapshot, and - only when the day
left the game non-terminal - the day increment and next-day trading
post. -/
def finish_day (g1 : Game) (msgs : List String) (food_consumed : Int) :
    Snapshot × Game :=
  let g2 := consume_food g1 food_consumed
  let event_msgs := (apply_random_event g2).1
  let g3 := (apply_random_event g2).2
  let g4 := end_of_day g3
  let messages := msgs ++ event_msgs ++ g4.state.event_log
  let snap := make_snapshot g4 messages
  let g5 :=
    if g4.is_over then g4
    else
      maybe_prepare_trade_post
        { g4 with state := { g4.state with day := g4.state.day + 1 } } false
  (snap, g5)

/-- `Game.perform_action`.  The returned pair carries the raised error
or the snapshot together with the (possibly partially mutated) game:
a Python exception leaves the mutations made before the raise in
place. -/
def perform_action (g : Game) (action : String) (pace_arg : Option String)
    (ammo_spent : Option Int) (offer_index : Option Int) :
    Except Err Snapshot × Game :=
  if g.is_over then (.error .invalidState, g)
  else
    let action_key := py_strip (py_lower action)
    if ¬ (action_key = "travel" ∨ action_key = "hunt" ∨ action_key = "rest" ∨
          action_key = "trade") then
      (.error (.invalidArgument "Unknown action."), g)
    else
      let g := { g with state := { g.state with event_log := [] } }
      let g := update_weather_and_terrain g
      let d := action_dispatch g action_key pace_arg ammo_spent offer_index
      match d.1 with
      | .error e => (.error e, d.2)
      | .ok mf =>
        (.ok (finish_day d.2 mf.1 mf.2).1, (finish_day d.2 mf.1 mf.2).2)

/-- One action request of a scripted run (the kwargs of one
`perform_action` call). -/
structure ActionRequest where
  action : String
  pace_arg : Option String := none
  ammo_spent : Option Int := none
  offer_index : Option Int := none
deriving Repr, DecidableEq

/-- Run a fixed sequence of action requests, collecting each call's
result. -/
def runGame : Game → List ActionRequest → List (Except Err Snapshot) × Game
  | g, [] => ([], g)
  | g, a :: tl =>
    let r := perform_action g a.action a.pace_arg a.ammo_spent a.offer_index
    ((r.1 :: (runGame r.2 tl).1), (runGame r.2 tl).2)

/-- The value the `k`-th `random()` call made from this source will
return (draw `0` is the next one). -/
def Rng.peekFloat (r : Rng) (k : Nat) : ℚ :=
  (((r.fn (r.idx + k)) % RAND_DENOM : ℕ) : ℚ) / (RAND_DENOM : ℚ)

/-- `true` on an `Except.ok` result (no exception was raised). -/
def is_ok {ε α : Type} : Except ε α → Bool
  | .ok _ => true
  | .error _ => false

/-- The games reachable through the public API: any successful
construction, followed by any sequence of `perform_action` calls
(the game object persists across failing calls as well, so the
post-state of every call is reachable). -/
inductive Reachable : Game → Prop where
  | init (player_name profession : String) (difficulty : Difficulty) (rng : Rng)
      (g : Game) : mkGame player_name profession difficulty rng = some g →
      Reachable g
  | step (g : Game) (action : String) (pace_arg : Option String)
      (ammo_spent offer_index : Option Int) : Reachable g →
      Reachable (perform_action g action pace_arg ammo_spent offer_index).2

/-- The resource invariant maintained by the engine: the settings
attribute is the difficulty's preset row, the four resources are
non-negative, and health lies in `[0, 110]` (construction starts at
100 plus a profession bonus of at most 10; no later step pushes health
above its current value except `rest`, which caps at 100). -/
def ResourceInv (g : Game) : Prop :=
  g.settings = DIFFICULTY_SETTINGS g.difficulty ∧
  0 ≤ g.state.food ∧ 0 ≤ g.state.ammo ∧ 0 ≤ g.state.money ∧
  0 ≤ g.state.distance ∧ 0 ≤ g.state.health ∧ g.state.health ≤ 110

/-- The end-of-day rule as §4.2 step 6 of the specification words it:
starvation penalty first (health reduction clamped at the spec's
global lower health bound 0), then death, victory and time-limit
checks in that priority order, the death and time-limit outcomes
leaving the game lost (`alive = false`, `won = false`) and the victory
outcome leaving `alive` untouched. -/
def end_of_day_from_spec (g : Game) : Game :=
  let starved := g.state.food = 0
  let h1 := if starved then
      max 0 (g.state.health - (DIFFICULTY_SETTINGS g.difficulty).starvation_penalty)
    else g.state.health
  let log1 := if starved then
      g.state.event_log ++ ["Without food your health deteriorates quickly."]
    else g.state.event_log
  if h1 ≤ 0 then
    { g with
      state := { g.state with
                  health := h1
                  event_log := log1
                  alive := false
                  won := false
                  status := "You have perished on the trail." }
      is_over := true }
  else if g.state.distance ≥ 2000 then
    { g with
      state := { g.state with
                  health := h1
                  event_log := log1
                  won := true
                  status := "Congratulations! You have reached Oregon City." }
      is_over := true }
  else if g.state.day ≥ (DIFFICULTY_SETTINGS g.difficulty).max_days then
    { g with
      state := { g.state with
                  health := h1
                  event_log := log1
                  alive := false
                  won := false
                  status := "Time has run out before you reached Oregon." }
      is_over := true }
  else
    { g with
      state := { g.state with
                  health := h1
                  event_log := log1
                  status := "On the trail" } }

/-- A random source returning the same raw draw forever. -/
def const_rng (k : Nat) : Rng := ⟨fun _ => k, 0⟩

/-- A hand-built mid-journey state used as concrete input. -/
def demo_state : GameState :=
  { player_name := "Ann", profession := "banker", difficulty := .normal,
    food := 240, ammo := 55, money := 1700, health := 100 }

/-- A hand-built non-terminal game (the raw draw 500000 makes every
`random()` call return 1/2, so no random event triggers and no trading
post regenerates). -/
def demo_game : Game :=
  { state := demo_state, difficulty := .normal,
    settings := DIFFICULTY_SETTINGS .normal, event_chance := 27/100,
    max_days := 55, rng := const_rng 500000, is_over := false,
    current_trade_offers := [] }

/-- Fallback for `Option.getD` on games known to be `some`. -/
def fallback_game : Game := demo_game

/-- The game constructed by `mkGame "Ann" "banker" normal` from the
all-zero random source. -/
def demo_init : Game :=
  (mkGame "Ann" "banker" Difficulty.normal ⟨fun _ => 0, 0⟩).getD fallback_game

/-- The game constructed by `mkGame "Doc" "doctor" normal` from the
all-zero random source. -/
def doctor_game : Game :=
  (mkGame "Doc" "doctor" Difficulty.normal ⟨fun _ => 0, 0⟩).getD fallback_game

/-- A terminated copy of the demo game. -/
def over_game : Game := { demo_game with is_over := true }

/-- Demo game in stormy weather with a non-empty event log. -/
def c2_game : Game :=
  { demo_game with state := { demo_state with weather := "Stormy", event_log := ["old"] } }

/-- Demo game with an empty food store. -/
def c7_game : Game :=
  { demo_game with state := { demo_state with food := 0 } }

/-- Demo game with no trading post. -/
def c8_game : Game :=
  { demo_game with state := { demo_state with trade_available := false } }

/-- Demo game with a trading post holding one offer. -/
def c10_game : Game :=
  { demo_game with
    state := { demo_state with trade_available := true }
    current_trade_offers := [⟨"food", 30, 20⟩] }

/-- The game after the start-of-call mutations of `perform_action`:
event log cleared, weather and terrain redrawn. -/
def after_env_update (g : Game) : Game :=
  update_weather_and_terrain { g with state := { g.state with event_log := [] } }

instance {ε α : Type} [DecidableEq ε] [DecidableEq α] : DecidableEq (Except ε α) :=
  fun a b =>
    match a, b with
    | .error e1, .error e2 =>
      if h : e1 = e2 then isTrue (by rw [h]) else isFalse (by simp [h])
    | .error _, .ok _ => isFalse (by simp)
    | .ok _, .error _ => isFalse (by simp)
    | .ok a1, .ok a2 =>
      if h : a1 = a2 then isTrue (by rw [h]) else isFalse (by simp [h])

/-- `randint lo hi` draws at least `lo`. -/
theorem Rng.randint_lb (r : Rng) (lo hi : Int) (h : lo ≤ hi) :
    lo ≤ (r.randint lo hi).1 := by
  unfold Rng.randint
  have hne : hi - lo + 1 ≠ 0 := by omega
  have := Int.emod_nonneg (r.next.1 : Int) hne
  omega

/-- `randint lo hi` draws at most `hi`. -/
theorem Rng.randint_ub (r : Rng) (lo hi : Int) (h : lo ≤ hi) :
    (r.randint lo hi).1 ≤ hi := by
  unfold Rng.randint
  have hpos : 0 < hi - lo + 1 := by omega
  have := Int.emod_lt_of_pos (r.next.1 : Int) hpos
  omega

/-- Every difficulty row carries non-negative starting resources and
non-negative health adjustments. -/
theorem settings_bounds (d : Difficulty) :
    0 ≤ (DIFFICULTY_SETTINGS d).food ∧ 0 ≤ (DIFFICULTY_SETTINGS d).ammo ∧
    0 ≤ (DIFFICULTY_SETTINGS d).money ∧ 0 ≤ (DIFFICULTY_SETTINGS d).rest_health ∧
    0 ≤ (DIFFICULTY_SETTINGS d).starvation_penalty := by
  cases d <;> refine ⟨?_, ?_, ?_, ?_, ?_⟩ <;> decide

/-- Every profession bonus is non-negative and adds at most 10 health. -/
theorem bonus_bounds (p : String) (b : ProfessionBonus)
    (h : PROFESSION_BONUSES p = some b) :
    0 ≤ b.food ∧ 0 ≤ b.ammo ∧ 0 ≤ b.money ∧ 0 ≤ b.health ∧ b.health ≤ 10 := by
  unfold PROFESSION_BONUSES at h
  split_ifs at h <;> simp_all <;> subst h <;> decide

/-- `_rest` updates only the health field (clamped at 100). -/
theorem rest_snd (g : Game) : (rest g).2 =
    { g with state := { g.state with
        health := min 100 (g.state.health + g.settings.rest_health) } } := by
  unfold rest
  dsimp only
  split_ifs <;> rfl

/-- The start-of-call mutations preserve the resource invariant. -/
theorem after_env_update_inv (g : Game) (h : ResourceInv g) :
    ResourceInv (after_env_update g) := h

/-- `_rest` leaves the day counter unchanged. -/
theorem rest_day (g : Game) : (rest g).2.state.day = g.state.day := by
  unfold rest
  dsimp only
  split_ifs <;> rfl

/-- `_rest` leaves the offer list unchanged. -/
theorem rest_offers (g : Game) :
    (rest g).2.current_trade_offers = g.current_trade_offers := by
  unfold rest
  dsimp only
  split_ifs <;> rfl

/-- `_apply_random_event` leaves the day counter unchanged. -/
theorem apply_random_event_day (g : Game) :
    (apply_random_event g).2.state.day = g.state.day := by
  unfold apply_random_event
  dsimp only
  split_ifs <;> rfl

/-- `_apply_random_event` leaves the offer list unchanged. -/
theorem apply_random_event_offers (g : Game) :
    (apply_random_event g).2.current_trade_offers = g.current_trade_offers := by
  unfold apply_random_event
  dsimp only
  split_ifs <;> rfl

/-- `_apply_random_event` is a pure draw when the trigger roll comes
out above the event chance: no message and no state change beyond the
consumed draw. -/
theorem apply_random_event_of_gt (g : Game)
    (h : g.event_chance < g.rng.randFloat.1) :
    apply_random_event g = ([], { g with rng := g.rng.randFloat.2 }) := by
  unfold apply_random_event
  dsimp only
  rw [if_pos h]

/-- `_end_of_day` leaves the day counter unchanged. -/
theorem end_of_day_day (g : Game) : (end_of_day g).state.day = g.state.day := by
  unfold end_of_day
  dsimp only
  split_ifs <;> rfl

/-- `_end_of_day` leaves the distance unchanged. -/
theorem end_of_day_distance (g : Game) :
    (end_of_day g).state.distance = g.state.distance := by
  unfold end_of_day
  dsimp only
  split_ifs <;> rfl

/-- `_end_of_day` leaves food unchanged. -/
theorem end_of_day_food (g : Game) :
    (end_of_day g).state.food = g.state.food := by
  unfold end_of_day
  dsimp only
  split_ifs <;> rfl

/-- `_end_of_day` leaves ammo unchanged. -/
theorem end_of_day_ammo (g : Game) :
    (end_of_day g).state.ammo = g.state.ammo := by
  unfold end_of_day
  dsimp only
  split_ifs <;> rfl

/-- `_end_of_day` leaves money unchanged. -/
theorem end_of_day_money (g : Game) :
    (end_of_day g).state.money = g.state.money := by
  unfold end_of_day
  dsimp only
  split_ifs <;> rfl

/-- `_end_of_day` leaves the pace unchanged. -/
theorem end_of_day_pace (g : Game) :
    (end_of_day g).state.pace = g.state.pace := by
  unfold end_of_day
  dsimp only
  split_ifs <;> rfl

/-- `_end_of_day` leaves the offer list unchanged. -/
theorem end_of_day_offers (g : Game) :
    (end_of_day g).current_trade_offers = g.current_trade_offers := by
  unfold end_of_day
  dsimp only
  split_ifs <;> rfl

/-- `_end_of_day` applies exactly the starvation clamp to health. -/
theorem end_of_day_health (g : Game) :
    (end_of_day g).state.health =
      if g.state.food ≤ 0 then
        max 0 (g.state.health - g.settings.starvation_penalty)
      else g.state.health := by
  unfold end_of_day
  dsimp only
  split_ifs <;> rfl

/-- `_maybe_prepare_trade_post` leaves the day counter unchanged. -/
theorem maybe_prepare_day (g : Game) (b : Bool) :
    (maybe_prepare_trade_post g b).state.day = g.state.day := by
  unfold maybe_prepare_trade_post
  dsimp only
  split_ifs <;> rfl

/-- `_maybe_prepare_trade_post` leaves the distance unchanged. -/
theorem maybe_prepare_distance (g : Game) (b : Bool) :
    (maybe_prepare_trade_post g b).state.distance = g.state.distance := by
  unfold maybe_prepare_trade_post
  dsimp only
  split_ifs <;> rfl

/-- `_maybe_prepare_trade_post` leaves food unchanged. -/
theorem maybe_prepare_food (g : Game) (b : Bool) :
    (maybe_prepare_trade_post g b).state.food = g.state.food := by
  unfold maybe_prepare_trade_post
  dsimp only
  split_ifs <;> rfl

/-- `_maybe_prepare_trade_post` leaves ammo unchanged. -/
theorem maybe_prepare_ammo (g : Game) (b : Bool) :
    (maybe_prepare_trade_post g b).state.ammo = g.state.ammo := by
  unfold maybe_prepare_trade_post
  dsimp only
  split_ifs <;> rfl

/-- `_maybe_prepare_trade_post` leaves money unchanged. -/
theorem maybe_prepare_money (g : Game) (b : Bool) :
    (maybe_prepare_trade_post g b).state.money = g.state.money := by
  unfold maybe_prepare_trade_post
  dsimp only
  split_ifs <;> rfl

/-- `_maybe_prepare_trade_post` leaves the pace unchanged. -/
theorem maybe_prepare_pace (g : Game) (b : Bool) :
    (maybe_prepare_trade_post g b).state.pace = g.state.pace := by
  unfold maybe_prepare_trade_post
  dsimp only
  split_ifs <;> rfl

/-- `_maybe_prepare_trade_post` leaves health unchanged. -/
theorem maybe_prepare_health (g : Game) (b : Bool) :
    (maybe_prepare_trade_post g b).state.health = g.state.health := by
  unfold maybe_prepare_trade_post
  dsimp only
  split_ifs <;> rfl

/-- `_rest` leaves food unchanged. -/
theorem rest_food (g : Game) : (rest g).2.state.food = g.state.food := by
  unfold rest
  dsimp only
  split_ifs <;> rfl

/-- `_rest` leaves ammo unchanged. -/
theorem rest_ammo (g : Game) : (rest g).2.state.ammo = g.state.ammo := by
  unfold rest
  dsimp only
  split_ifs <;> rfl

/-- `_rest` leaves money unchanged. -/
theorem rest_money (g : Game) : (rest g).2.state.money = g.state.money := by
  unfold rest
  dsimp only
  split_ifs <;> rfl

/-- `_rest` leaves distance unchanged. -/
theorem rest_distance (g : Game) :
    (rest g).2.state.distance = g.state.distance := by
  unfold rest
  dsimp only
  split_ifs <;> rfl

/-- `_rest` leaves the pace unchanged. -/
theorem rest_pace (g : Game) : (rest g).2.state.pace = g.state.pace := by
  unfold rest
  dsimp only
  split_ifs <;> rfl

/-- `_rest` does not consume the random source. -/
theorem rest_rng (g : Game) : (rest g).2.rng = g.rng := by
  unfold rest
  dsimp only
  split_ifs <;> rfl

/-- `_rest` leaves the event chance unchanged. -/
theorem rest_event_chance (g : Game) :
    (rest g).2.event_chance = g.event_chance := by
  unfold rest
  dsimp only
  split_ifs <;> rfl

/-- `_rest` heals by the difficulty's rest amount, clamped at 100. -/
theorem rest_health_eq (g : Game) :
    (rest g).2.state.health =
      min 100 (g.state.health + g.settings.rest_health) := by
  unfold rest
  dsimp only
  split_ifs <;> rfl

/-- The `rest` path of `perform_action` on a non-terminal game:
start-of-call mutations, the rest handler, then the day-finishing
pipeline on the base ration. -/
theorem perform_action_rest_eq (g : Game) (h : g.is_over = false) :
    perform_action g "rest" none none none =
      (Except.ok (finish_day (rest (after_env_update g)).2
          [(rest (after_env_update g)).1] BASE_FOOD_PER_DAY).1,
       (finish_day (rest (after_env_update g)).2
          [(rest (after_env_update g)).1] BASE_FOOD_PER_DAY).2) := by
  unfold perform_action after_env_update action_dispatch
  rw [h]
  have hk : py_strip (py_lower "rest") = "rest" := rfl
  simp only [hk, Bool.false_eq_true, if_false, ite_false, ite_true]
  have h1 : ("rest" = "travel") = False := by simp
  have h2 : ("rest" = "hunt") = False := by simp
  have h3 : ("rest" = "rest") = True := by simp
  simp only [h1, h2, h3, ite_false, ite_true, not_false_iff, or_false, false_or,
    true_or, or_true, not_true, if_true, if_false]

/-- `_travel` on a valid pace: the produced message, the extra food
surcharge, and the distance/pace update. -/
theorem travel_eq (g : Game) (p : String) (speed : Int)
    (hpace : PACE_SPEEDS (py_strip (py_lower p)) = some speed) :
    travel g p =
      (let pace_key := py_strip (py_lower p)
       let miles := max 5 (pythonRound
         ((speed : ℚ) * weather_modifier g * terrain_modifier g))
       let w := py_lower g.state.weather
       let t := py_lower g.state.terrain
       let extra_food :=
         ⌈(BASE_FOOD_PER_DAY : ℚ) * max 0 (PACE_FOOD_MULTIPLIER pace_key - 1)⌉
       (Except.ok
          (s!"You travel {miles} miles at a {pace_key} pace through {w} weather and {t} terrain.",
           extra_food),
        { g with state := { g.state with
            distance := g.state.distance + miles, pace := pace_key } })) := by
  unfold travel
  dsimp only
  rw [hpace]

/-- `_travel` preserves the resource invariant. -/
theorem travel_inv (g : Game) (p : String) (h : ResourceInv g) :
    ResourceInv (travel g p).2 := by
  unfold travel
  dsimp only
  cases hp : PACE_SPEEDS (py_strip (py_lower p)) with
  | none => simp only [hp]; exact h
  | some speed =>
    simp only [hp]
    obtain ⟨hs, hf, ha, hm, hd, hh0, hh1⟩ := h
    refine ⟨hs, hf, ha, hm, ?_, hh0, hh1⟩
    have h5 : (5 : ℤ) ≤ max 5 (pythonRound
        ((speed : ℚ) * weather_modifier g * terrain_modifier g)) := le_max_left _ _
    dsimp only
    omega

/-- `_hunt` preserves the resource invariant. -/
theorem hunt_inv (g : Game) (s : Option Int) (h : ResourceInv g) :
    ResourceInv (hunt g s).2 := by
  unfold hunt
  dsimp only
  split_ifs with h1 h2
  · exact h
  · exact h
  · obtain ⟨hs, hf, ha, hm, hd, hh0, hh1⟩ := h
    refine ⟨hs, ?_, ?_, hm, hd, hh0, hh1⟩
    · have := Rng.randint_lb g.rng 25 55 (by omega)
      dsimp only
      omega
    · dsimp only
      omega

/-- `_rest` preserves the resource invariant. -/
theorem rest_inv (g : Game) (h : ResourceInv g) : ResourceInv (rest g).2 := by
  obtain ⟨hs, hf, ha, hm, hd, hh0, hh1⟩ := h
  have hr := (settings_bounds g.difficulty).2.2.2.1
  rw [← hs] at hr
  unfold rest
  dsimp only
  split_ifs <;>
    exact ⟨hs, hf, ha, hm, hd, by (try dsimp only); omega, by (try dsimp only); omega⟩

/-- `_add_resource` preserves the resource invariant. -/
theorem add_resource_inv (g : Game) (item : String) (amt : Int)
    (h : ResourceInv g) : ResourceInv (add_resource g item amt) := by
  unfold add_resource
  obtain ⟨hs, hf, ha, hm, hd, hh0, hh1⟩ := h
  split_ifs <;>
    exact ⟨hs, by (try dsimp only); omega, by (try dsimp only); omega, hm, hd, hh0, hh1⟩

/-- `_trade` preserves the resource invariant. -/
theorem trade_inv (g : Game) (i : Option Int) (h : ResourceInv g) :
    ResourceInv (trade g i).2 := by
  unfold trade
  dsimp only
  split_ifs with h1
  · exact h
  · cases i with
    | none => exact h
    | some idx =>
      dsimp only
      split_ifs with h2 h3 h4 h5 h6
      · exact h
      · exact h
      · -- buy branch
        refine add_resource_inv _ _ _ ?_
        obtain ⟨hs, hf, ha, hm, hd, hh0, hh1⟩ := h
        exact ⟨hs, hf, ha, by (try dsimp only); omega, hd, hh0, hh1⟩
      · exact h
      · -- sell branch
        have hadd := add_resource_inv g
          (g.current_trade_offers.getD idx.toNat ⟨"food", 0, 0⟩).item
          (-(g.current_trade_offers.getD idx.toNat ⟨"food", 0, 0⟩).quantity) h
        have habs := abs_nonneg (g.current_trade_offers.getD idx.toNat
          (⟨"food", 0, 0⟩ : TradeOffer)).price
        obtain ⟨hs, hf, ha, hm, hd, hh0, hh1⟩ := hadd
        exact ⟨hs, hf, ha, by (try dsimp only); omega, hd, hh0, hh1⟩
      · exact h

/-- `_consume_food` preserves the resource invariant. -/
theorem consume_food_inv (g : Game) (amt : Int) (h : ResourceInv g) :
    ResourceInv (consume_food g amt) := by
  obtain ⟨hs, hf, ha, hm, hd, hh0, hh1⟩ := h
  exact ⟨hs, by unfold consume_food; dsimp only; omega, ha, hm, hd, hh0, hh1⟩

/-- `_apply_random_event` preserves the resource invariant. -/
theorem apply_random_event_inv (g : Game) (h : ResourceInv g) :
    ResourceInv (apply_random_event g).2 := by
  unfold apply_random_event
  dsimp only
  obtain ⟨hs, hf, ha, hm, hd, hh0, hh1⟩ := h
  have h8 := Rng.randint_lb g.rng.randFloat.2.randFloat.2 8 15 (by omega)
  have h12 := Rng.randint_lb g.rng.randFloat.2.randFloat.2 12 20 (by omega)
  have h20 := Rng.randint_lb g.rng.randFloat.2.randFloat.2 20 45 (by omega)
  split_ifs with h1 h2 h3 h4 h5 h6
  · exact ⟨hs, hf, ha, hm, hd, hh0, hh1⟩
  · exact ⟨hs, by (try dsimp only); omega, ha, hm, hd, hh0, hh1⟩
  · exact ⟨hs, hf, ha, hm, hd, by (try dsimp only); omega, by (try dsimp only); omega⟩
  · exact ⟨hs, hf, ha, hm, hd, by (try dsimp only); omega, by (try dsimp only); omega⟩
  · exact ⟨hs, hf, by (try dsimp only); omega, hm, hd, hh0, hh1⟩
  · exact ⟨hs, by (try dsimp only); omega, ha, hm, hd, hh0, hh1⟩
  · exact ⟨hs, hf, ha, hm, by (try dsimp only); omega, hh0, hh1⟩

/-- `_end_of_day` preserves the resource invariant. -/
theorem end_of_day_inv (g : Game) (h : ResourceInv g) :
    ResourceInv (end_of_day g) := by
  unfold end_of_day
  dsimp only
  obtain ⟨hs, hf, ha, hm, hd, hh0, hh1⟩ := h
  have hpen := (settings_bounds g.difficulty).2.2.2.2
  rw [← hs] at hpen
  split_ifs <;>
    exact ⟨hs, hf, ha, hm, hd, by (try dsimp only); omega, by (try dsimp only); omega⟩

/-- `_maybe_prepare_trade_post` preserves the resource invariant. -/
theorem maybe_prepare_inv (g : Game) (b : Bool) (h : ResourceInv g) :
    ResourceInv (maybe_prepare_trade_post g b) := by
  unfold maybe_prepare_trade_post
  dsimp only
  split_ifs <;> exact h

/-- The action dispatch preserves the resource invariant. -/
theorem action_dispatch_inv (g : Game) (key : String) (p : Option String)
    (s i : Option Int) (h : ResourceInv g) :
    ResourceInv (action_dispatch g key p s i).2 := by
  unfold action_dispatch
  dsimp only
  split_ifs
  · exact travel_inv g _ h
  · exact hunt_inv g s h
  · exact rest_inv g h
  · exact trade_inv g i h

/-- Steps 4-8 of the day cycle preserve the resource invariant. -/
theorem finish_day_inv (g : Game) (m : List String) (f : Int)
    (h : ResourceInv g) : ResourceInv (finish_day g m f).2 := by
  unfold finish_day
  dsimp only
  have h4 : ResourceInv (end_of_day (apply_random_event (consume_food g f)).2) :=
    end_of_day_inv _ (apply_random_event_inv _ (consume_food_inv _ _ h))
  split_ifs
  · exact h4
  · exact maybe_prepare_inv _ _ h4

/-- `perform_action` preserves the resource invariant, whether it
raises or not. -/
theorem perform_action_inv (g : Game) (a : String) (p : Option String)
    (s i : Option Int) (h : ResourceInv g) :
    ResourceInv (perform_action g a p s i).2 := by
  unfold perform_action
  dsimp only
  by_cases h1 : g.is_over = true
  · rw [if_pos h1]
    exact h
  · rw [if_neg h1]
    by_cases h2 : ¬ (py_strip (py_lower a) = "travel" ∨ py_strip (py_lower a) = "hunt" ∨
        py_strip (py_lower a) = "rest" ∨ py_strip (py_lower a) = "trade")
    · rw [if_pos h2]
      exact h
    · rw [if_neg h2]
      have hd : ResourceInv (action_dispatch
          (update_weather_and_terrain { g with state := { g.state with event_log := [] } })
          (py_strip (py_lower a)) p s i).2 :=
        action_dispatch_inv _ _ _ _ _ h
      rcases he : (action_dispatch
          (update_weather_and_terrain { g with state := { g.state with event_log := [] } })
          (py_strip (py_lower a)) p s i).1 with e | mf
      · exact hd
      · exact finish_day_inv _ mf.1 mf.2 hd

/-- The constructed game satisfies the resource invariant. -/
theorem mkGame_inv (pn pf : String) (d : Difficulty) (rng : Rng) (g : Game)
    (h : mkGame pn pf d rng = some g) : ResourceInv g := by
  unfold mkGame at h
  dsimp only at h
  cases hb : PROFESSION_BONUSES (py_strip (py_lower pf)) with
  | none => rw [hb] at h; exact absurd h (by simp)
  | some b =>
    rw [hb] at h
    dsimp only at h
    injection h with h
    subst h
    apply maybe_prepare_inv
    obtain ⟨hbf, hba, hbm, hbh0, hbh1⟩ := bonus_bounds _ _ hb
    obtain ⟨hsf, hsa, hsm, hsr, hsp⟩ := settings_bounds d
    refine ⟨rfl, ?_, ?_, ?_, ?_, ?_, ?_⟩
    · show (0 : ℤ) ≤ (DIFFICULTY_SETTINGS d).food + b.food
      omega
    · show (0 : ℤ) ≤ (DIFFICULTY_SETTINGS d).ammo + b.ammo
      omega
    · show (0 : ℤ) ≤ (DIFFICULTY_SETTINGS d).money + b.money
      omega
    · show (0 : ℤ) ≤ 0
      omega
    · show (0 : ℤ) ≤ 100 + b.health
      omega
    · show (100 : ℤ) + b.health ≤ 110
      omega

/-- Every reachable game satisfies the resource invariant. -/
theorem resource_inv_reachable (g : Game) (h : Reachable g) : ResourceInv g := by
  induction h with
  | init pn pf d rng g hg => exact mkGame_inv pn pf d rng g hg
  | step g a p s i hg ih => exact perform_action_inv g a p s i ih

/-- C1 (amended): for every reachable game state the health field lies
in `[0, 110]`: it is never negative, and never exceeds 100 plus the
largest profession health bonus (10); the claimed upper bound 100 fails
at construction for professions with a health bonus. -/
theorem C1_health_in_0_110 (g : Game) (h : Reachable g) :
    0 ≤ g.state.health ∧ g.state.health ≤ 110 := by
  obtain ⟨-, -, -, -, -, hh0, hh1⟩ := resource_inv_reachable g h
  exact ⟨hh0, hh1⟩

/-- C1 counterexample: constructing a doctor game is reachable and
starts at health 110, above the claimed bound 100. -/
theorem C1_counterexample :
    mkGame "Doc" "doctor" Difficulty.normal ⟨fun _ => 0, 0⟩ = some doctor_game ∧
    Reachable doctor_game ∧ 100 < doctor_game.state.health :=
  ⟨rfl,
   Reachable.init "Doc" "doctor" Difficulty.normal ⟨fun _ => 0, 0⟩ doctor_game rfl,
   by decide⟩

/-- C1 witness: the doctor game instantiates the amended bound. -/
theorem C1_witness :
    0 ≤ doctor_game.state.health ∧ doctor_game.state.health ≤ 110 :=
  C1_health_in_0_110 doctor_game
    (Reachable.init "Doc" "doctor" Difficulty.normal ⟨fun _ => 0, 0⟩ doctor_game rfl)

/-- C3: on a terminal game, `perform_action` raises the invalid-state
error for every action string and leaves the game unchanged. -/
theorem C3_terminal_rejects_all_actions (g : Game) (action : String)
    (pace_arg : Option String) (ammo_spent offer_index : Option Int)
    (h : g.is_over = true) :
    perform_action g action pace_arg ammo_spent offer_index =
      (Except.error Err.invalidState, g) := by
  unfold perform_action
  rw [if_pos h]

/-- C3 witness: a concrete terminal game rejects an unknown action
name with invalid-state, unchanged. -/
theorem C3_witness :
    over_game.is_over = true ∧
    perform_action over_game "anything" none none none =
      (Except.error Err.invalidState, over_game) :=
  ⟨rfl, C3_terminal_rejects_all_actions over_game "anything" none none none rfl⟩

/-- C4: food, ammo, money and distance are non-negative in every
reachable game state (after construction and after every sequence of
`perform_action` calls, successful or failing). -/
theorem C4_resources_nonneg (g : Game) (h : Reachable g) :
    0 ≤ g.state.food ∧ 0 ≤ g.state.ammo ∧ 0 ≤ g.state.money ∧
    0 ≤ g.state.distance := by
  obtain ⟨-, hf, ha, hm, hd, -, -⟩ := resource_inv_reachable g h
  exact ⟨hf, ha, hm, hd⟩

/-- C4 witness: the freshly constructed banker game instantiates the
bounds. -/
theorem C4_witness :
    0 ≤ demo_init.state.food ∧ 0 ≤ demo_init.state.ammo ∧
    0 ≤ demo_init.state.money ∧ 0 ≤ demo_init.state.distance :=
  C4_resources_nonneg demo_init
    (Reachable.init "Ann" "banker" Difficulty.normal ⟨fun _ => 0, 0⟩ demo_init rfl)

/-- C9: the engine is deterministic: two games constructed from the
same seed stream run through the same action sequence produce
identical results (all randomness flows through the explicit random
source, drawn in a fixed order). -/
theorem C9_determinism (player_name profession : String)
    (difficulty : Difficulty) (fn : Nat → Nat) (acts : List ActionRequest)
    (g1 g2 : Game)
    (h1 : mkGame player_name profession difficulty ⟨fn, 0⟩ = some g1)
    (h2 : mkGame player_name profession difficulty ⟨fn, 0⟩ = some g2) :
    runGame g1 acts = runGame g2 acts := by
  rw [h1] at h2
  injection h2 with h2
  rw [h2]

/-- `_hunt` fails without touching the game when the requested ammo
exceeds the stock. -/
theorem hunt_err (g : Game) (n : Int) (hn : 0 < n) (hgt : g.state.ammo < n) :
    hunt g (some n) =
      (Except.error (Err.invalidArgument "Not enough ammunition to hunt."), g) := by
  unfold hunt
  dsimp only [Option.getD]
  rw [if_neg (by omega), if_pos hgt]

/-- C2 (amended): hunting with more ammo than stocked raises the
invalid-argument error, but the game is not left exactly as before the
call: the event log has already been cleared and weather and terrain
re-rolled (advancing the random source) before the validation runs.
Food, ammo, money, distance, health, day and pace are unchanged. -/
theorem C2_hunt_excess_ammo_error (g : Game) (n : Int)
    (hover : g.is_over = false) (hn : 0 < n) (hgt : g.state.ammo < n) :
    perform_action g "hunt" none (some n) none =
      (Except.error (Err.invalidArgument "Not enough ammunition to hunt."),
       after_env_update g) ∧
    (after_env_update g).state.ammo = g.state.ammo ∧
    (after_env_update g).state.food = g.state.food ∧
    (after_env_update g).state.money = g.state.money ∧
    (after_env_update g).state.distance = g.state.distance ∧
    (after_env_update g).state.health = g.state.health ∧
    (after_env_update g).state.day = g.state.day ∧
    (after_env_update g).state.pace = g.state.pace ∧
    (after_env_update g).state.event_log = [] := by
  refine ⟨?_, rfl, rfl, rfl, rfl, rfl, rfl, rfl, rfl⟩
  unfold perform_action action_dispatch after_env_update
  rw [hover]
  have hk : py_strip (py_lower "hunt") = "hunt" := rfl
  simp only [hk, Bool.false_eq_true, if_false, ite_false, ite_true]
  have h1 : ("hunt" = "travel") = False := by simp
  have h2 : ("hunt" = "hunt") = True := by simp
  simp only [h1, h2, ite_false, ite_true, not_false_iff, or_false, false_or,
    true_or, or_true, not_true, if_true, if_false]
  rw [hunt_err]
  · rfl
  · exact hn
  · exact hgt

/-- C2 counterexample: on a concrete stormy game with a non-empty
event log, the over-spending hunt raises invalid-argument but weather,
event log and the random-source cursor have all changed. -/
theorem C2_counterexample :
    c2_game.is_over = false ∧ c2_game.state.ammo < 999 ∧
    (perform_action c2_game "hunt" none (some 999) none).1 =
      Except.error (Err.invalidArgument "Not enough ammunition to hunt.") ∧
    (perform_action c2_game "hunt" none (some 999) none).2.state.weather ≠
      c2_game.state.weather ∧
    (perform_action c2_game "hunt" none (some 999) none).2.state.event_log ≠
      c2_game.state.event_log ∧
    (perform_action c2_game "hunt" none (some 999) none).2.rng.idx ≠
      c2_game.rng.idx :=
  ⟨rfl, by decide, by decide, by decide, by decide, by decide⟩

/-- C2 witness: the amended statement instantiated on the stormy
game. -/
theorem C2_witness :
    perform_action c2_game "hunt" none (some 999) none =
      (Except.error (Err.invalidArgument "Not enough ammunition to hunt."),
       after_env_update c2_game) ∧
    (after_env_update c2_game).state.ammo = c2_game.state.ammo ∧
    (after_env_update c2_game).state.food = c2_game.state.food ∧
    (after_env_update c2_game).state.money = c2_game.state.money ∧
    (after_env_update c2_game).state.distance = c2_game.state.distance ∧
    (after_env_update c2_game).state.health = c2_game.state.health ∧
    (after_env_update c2_game).state.day = c2_game.state.day ∧
    (after_env_update c2_game).state.pace = c2_game.state.pace ∧
    (after_env_update c2_game).state.event_log = [] :=
  C2_hunt_excess_ammo_error c2_game 999 rfl (by decide) (by decide)

/-- `_trade` raises invalid-argument on an out-of-range index when a
stocked trading post is open, without touching the game. -/
theorem trade_err_out_of_range (g : Game) (idx : Int)
    (hav : g.state.trade_available = true) (hne : g.current_trade_offers ≠ [])
    (hout : idx < 0 ∨ (g.current_trade_offers.length : Int) ≤ idx) :
    trade g (some idx) =
      (Except.error (Err.invalidArgument "Invalid trade offer selection."), g) := by
  unfold trade
  dsimp only
  rw [if_neg (by simp [hav, hne]), if_pos hout]

/-- C8 (amended): when a trading post with a non-empty offer list is
open, `perform_action("trade", i)` with `i` negative or at least the
list length raises the invalid-argument error.  (When no post or no
offers are available, any index is instead accepted as a no-op browse
message, so the original claim fails there.) -/
theorem C8_trade_index_out_of_range (g : Game) (idx : Int)
    (hover : g.is_over = false) (hav : g.state.trade_available = true)
    (hne : g.current_trade_offers ≠ [])
    (hout : idx < 0 ∨ (g.current_trade_offers.length : Int) ≤ idx) :
    (perform_action g "trade" none none (some idx)).1 =
      Except.error (Err.invalidArgument "Invalid trade offer selection.") := by
  unfold perform_action action_dispatch
  rw [hover]
  have hk : py_strip (py_lower "trade") = "trade" := rfl
  simp only [hk, Bool.false_eq_true, if_false, ite_false, ite_true]
  have h1 : ("trade" = "travel") = False := by simp
  have h2 : ("trade" = "hunt") = False := by simp
  have h3 : ("trade" = "rest") = False := by simp
  simp only [h1, h2, h3, ite_false, ite_true, not_false_iff, or_false, false_or,
    true_or, or_true, not_true, if_true, if_false]
  rw [trade_err_out_of_range]
  · rfl
  · exact hav
  · exact hne
  · exact hout

/-- C8 counterexample: with no trading post open, index 99 does not
raise at all - the call succeeds with a browse message. -/
theorem C8_counterexample :
    c8_game.is_over = false ∧ c8_game.state.trade_available = false ∧
    is_ok (perform_action c8_game "trade" none none (some 99)).1 = true :=
  ⟨rfl, rfl, by decide⟩

/-- C8 witness: index 5 against the one-offer post raises
invalid-argument. -/
theorem C8_witness :
    (perform_action c10_game "trade" none none (some 5)).1 =
      Except.error (Err.invalidArgument "Invalid trade offer selection.") :=
  C8_trade_index_out_of_range c10_game 5 rfl rfl (by decide) (by decide)

/-- C5: under the engine's own invariants (settings and max-days drawn
from the difficulty row, food non-negative, won not yet set), the
code's `_end_of_day` coincides with the specification's priority
order: starvation penalty, then death, victory and time-limit checks. -/
theorem C5_end_of_day_priority (g : Game)
    (hs : g.settings = DIFFICULTY_SETTINGS g.difficulty)
    (hmd : g.max_days = (DIFFICULTY_SETTINGS g.difficulty).max_days)
    (hfood : 0 ≤ g.state.food) (hwon : g.state.won = false) :
    end_of_day g = end_of_day_from_spec g := by
  obtain ⟨⟨pn, pf, df, dy, di, fo, am, mo, he, pa, we, te, al, wo, st, el, ta⟩,
    gd, gs, gec, gmd, grng, gio, gofs⟩ := g
  dsimp only at hs hmd hfood hwon
  subst hs hmd hwon
  unfold end_of_day end_of_day_from_spec TARGET_MILES
  dsimp only
  split_ifs <;> first | rfl | omega

/-- C5 witness: the end-of-day rule instantiated on the demo game. -/
theorem C5_witness :
    demo_game.settings = DIFFICULTY_SETTINGS demo_game.difficulty ∧
    demo_game.max_days = (DIFFICULTY_SETTINGS demo_game.difficulty).max_days ∧
    0 ≤ demo_game.state.food ∧ demo_game.state.won = false ∧
    end_of_day demo_game = end_of_day_from_spec demo_game :=
  ⟨rfl, rfl, by decide, rfl,
   C5_end_of_day_priority demo_game rfl rfl (by decide) rfl⟩

/-- `_add_resource` leaves the day counter unchanged. -/
theorem add_resource_day (g : Game) (item : String) (amt : Int) :
    (add_resource g item amt).state.day = g.state.day := by
  unfold add_resource
  split_ifs <;> rfl

/-- `_travel` leaves the day counter unchanged. -/
theorem travel_day (g : Game) (p : String) :
    (travel g p).2.state.day = g.state.day := by
  unfold travel
  dsimp only
  cases hp : PACE_SPEEDS (py_strip (py_lower p)) <;> simp only [hp] <;> rfl

/-- `_hunt` leaves the day counter unchanged. -/
theorem hunt_day (g : Game) (s : Option Int) :
    (hunt g s).2.state.day = g.state.day := by
  unfold hunt
  dsimp only
  split_ifs <;> rfl

/-- `_trade` leaves the day counter unchanged. -/
theorem trade_day (g : Game) (i : Option Int) :
    (trade g i).2.state.day = g.state.day := by
  unfold trade
  dsimp only
  split_ifs with h1
  · rfl
  · cases i with
    | none => rfl
    | some idx =>
      dsimp only
      split_ifs with h2 h3 h4 h5 h6
      · rfl
      · rfl
      · rw [add_resource_day]
      · rfl
      · rw [add_resource_day]
      · rfl

/-- Every action handler leaves the day counter unchanged. -/
theorem action_dispatch_day (g : Game) (k : String) (p : Option String)
    (s i : Option Int) :
    (action_dispatch g k p s i).2.state.day = g.state.day := by
  unfold action_dispatch
  dsimp only
  split_ifs
  · exact travel_day g _
  · exact hunt_day g s
  · exact rest_day g
  · exact trade_day g i

/-- The day-finishing snapshot carries the pre-increment day. -/
theorem finish_day_fst_day (g : Game) (m : List String) (f : Int) :
    (finish_day g m f).1.day = g.state.day := by
  unfold finish_day
  dsimp only [make_snapshot]
  rw [end_of_day_day, apply_random_event_day]
  rfl

/-- The day-finishing snapshot describes the offer list as it stood
when the day ended, before any regeneration. -/
theorem finish_day_fst_offers (g : Game) (m : List String) (f : Int) :
    (finish_day g m f).1.trade_offers =
      g.current_trade_offers.map TradeOffer.describe := by
  unfold finish_day
  dsimp only [make_snapshot]
  rw [end_of_day_offers, apply_random_event_offers]
  rfl

/-- When the finished day leaves the game non-terminal, the resulting
game carries the incremented day counter. -/
theorem finish_day_snd_day (g : Game) (m : List String) (f : Int) :
    (finish_day g m f).2.is_over = false →
      (finish_day g m f).2.state.day = g.state.day + 1 := by
  unfold finish_day
  dsimp only
  intro h5
  by_cases hio : (end_of_day (apply_random_event (consume_food g f)).2).is_over = true
  · rw [if_pos hio] at h5
    rw [hio] at h5
    exact absurd h5 (by simp)
  · rw [if_neg hio]
    rw [maybe_prepare_day]
    dsimp only
    rw [end_of_day_day, apply_random_event_day]
    rfl

/-- `perform_action` on a non-terminal game, written without the
terminal guard: the start-of-call mutations, the dispatch, and the
day-finishing pipeline. -/
def perform_action_live (g : Game) (action : String) (pace_arg : Option String)
    (ammo_spent offer_index : Option Int) : Except Err Snapshot × Game :=
  let action_key := py_strip (py_lower action)
  if ¬ (action_key = "travel" ∨ action_key = "hunt" ∨ action_key = "rest" ∨
        action_key = "trade") then
    (.error (.invalidArgument "Unknown action."), g)
  else
    let d := action_dispatch (after_env_update g) action_key pace_arg ammo_spent offer_index
    match d.1 with
    | .error e => (.error e, d.2)
    | .ok mf =>
      (.ok (finish_day d.2 mf.1 mf.2).1, (finish_day d.2 mf.1 mf.2).2)

/-- On a non-terminal game `perform_action` is its guard-free body. -/
theorem perform_action_live_eq (g : Game) (a : String) (p : Option String)
    (s i : Option Int) (hover : g.is_over = false) :
    perform_action g a p s i = perform_action_live g a p s i := by
  unfold perform_action perform_action_live after_env_update
  rw [hover]
  rfl

/-- C6 (amended): for every `perform_action` call that returns a
snapshot, the snapshot is taken before the day increment and the
next-day trading-post regeneration: its day field equals the day at
entry, its trade-offer descriptions are those of the offer list as it
stands right after the day's action handler ran (on a trade day, after
the accepted offer was consumed), and only the post-call game - when
the day left it non-terminal - carries day+1. -/
theorem C6_snapshot_before_day_increment (g : Game) (a : String)
    (p : Option String) (s i : Option Int) (snap : Snapshot)
    (hover : g.is_over = false)
    (hok : (perform_action g a p s i).1 = Except.ok snap) :
    snap.day = g.state.day ∧
    snap.trade_offers =
      (action_dispatch (after_env_update g) (py_strip (py_lower a))
        p s i).2.current_trade_offers.map TradeOffer.describe ∧
    ((perform_action g a p s i).2.is_over = false →
      (perform_action g a p s i).2.state.day = g.state.day + 1) := by
  rw [perform_action_live_eq g a p s i hover] at hok ⊢
  unfold perform_action_live at hok ⊢
  dsimp only at hok ⊢
  by_cases h2 : ¬ (py_strip (py_lower a) = "travel" ∨ py_strip (py_lower a) = "hunt" ∨
      py_strip (py_lower a) = "rest" ∨ py_strip (py_lower a) = "trade")
  · rw [if_pos h2] at hok
    exact absurd hok (by simp)
  · rw [if_neg h2] at hok ⊢
    cases he : (action_dispatch (after_env_update g) (py_strip (py_lower a)) p s i).1 with
    | error e =>
      rw [he] at hok
      exact absurd hok (by simp)
    | ok mf =>
      rw [he] at hok
      dsimp only at hok ⊢
      injection hok with hok
      refine ⟨?_, ?_, ?_⟩
      · rw [← hok, finish_day_fst_day, action_dispatch_day]
        rfl
      · rw [← hok, finish_day_fst_offers]
      · intro h5
        rw [finish_day_snd_day _ mf.1 mf.2 h5, action_dispatch_day]
        rfl

/-- C6 counterexample: on the demo game (entry day 1), the completed
rest call returns a snapshot whose day is 1, not 2, even though the
post-call game has moved to day 2. -/
theorem C6_counterexample :
    demo_game.is_over = false ∧
    (perform_action demo_game "rest" none none none).2.is_over = false ∧
    demo_game.state.day = 1 ∧
    ((perform_action demo_game "rest" none none none).1.toOption.map Snapshot.day) =
      some 1 ∧
    (perform_action demo_game "rest" none none none).2.state.day = 2 :=
  ⟨rfl, by decide, rfl, by decide, by decide⟩

/-- Fallback snapshot for `Option.getD` on results known to be ok. -/
def fallback_snap : Snapshot := make_snapshot demo_game []

/-- The snapshot returned by a rest call on the demo game. -/
def demo_rest_snap : Snapshot :=
  ((perform_action demo_game "rest" none none none).1.toOption).getD fallback_snap

/-- C6 witness: the amended statement instantiated on a rest call on
the demo game. -/
theorem C6_witness :
    demo_rest_snap.day = demo_game.state.day ∧
    demo_rest_snap.trade_offers =
      (action_dispatch (after_env_update demo_game) (py_strip (py_lower "rest"))
        none none none).2.current_trade_offers.map TradeOffer.describe ∧
    ((perform_action demo_game "rest" none none none).2.is_over = false →
      (perform_action demo_game "rest" none none none).2.state.day =
        demo_game.state.day + 1) :=
  C6_snapshot_before_day_increment demo_game "rest" none none none
    demo_rest_snap rfl (by decide)

/-- C10 (amended): a completed `rest` call during which the
random-event trigger roll does not fire leaves ammo, money, distance
and pace unchanged, consumes the base ration (food clamped at 0), and,
whenever the ration leaves food positive, sets health to the entry
health plus the difficulty's rest amount clamped at 100.  (Day,
weather, terrain, status, the event log, the termination flags and the
trading-post availability and offers may still change - the next-day
post regeneration is not part of the claimed frame, which is why the
claim as stated fails.) -/
theorem C10_rest_frame (g : Game) (hover : g.is_over = false)
    (hnoev : g.event_chance < g.rng.peekFloat 2) :
    (perform_action g "rest" none none none).2.state.ammo = g.state.ammo ∧
    (perform_action g "rest" none none none).2.state.money = g.state.money ∧
    (perform_action g "rest" none none none).2.state.distance = g.state.distance ∧
    (perform_action g "rest" none none none).2.state.pace = g.state.pace ∧
    (perform_action g "rest" none none none).2.state.food =
      max 0 (g.state.food - 5) ∧
    (0 < g.state.food - 5 →
      (perform_action g "rest" none none none).2.state.health =
        min 100 (g.state.health + g.settings.rest_health)) := by
  rw [perform_action_rest_eq g hover]
  unfold finish_day
  dsimp only
  have hnoev2 : (consume_food (rest (after_env_update g)).2
        BASE_FOOD_PER_DAY).event_chance <
      (consume_food (rest (after_env_update g)).2
        BASE_FOOD_PER_DAY).rng.randFloat.1 := by
    rw [show (consume_food (rest (after_env_update g)).2 BASE_FOOD_PER_DAY).rng =
        (rest (after_env_update g)).2.rng from rfl, rest_rng]
    rw [show (consume_food (rest (after_env_update g)).2
          BASE_FOOD_PER_DAY).event_chance =
        (rest (after_env_update g)).2.event_chance from rfl, rest_event_chance]
    exact hnoev
  rw [apply_random_event_of_gt
    (consume_food (rest (after_env_update g)).2 BASE_FOOD_PER_DAY) hnoev2]
  dsimp only
  refine ⟨?_, ?_, ?_, ?_, ?_, ?_⟩
  · split
    · rw [end_of_day_ammo]
      show (rest (after_env_update g)).2.state.ammo = g.state.ammo
      rw [rest_ammo]
      rfl
    · rw [maybe_prepare_ammo]
      dsimp only
      rw [end_of_day_ammo]
      show (rest (after_env_update g)).2.state.ammo = g.state.ammo
      rw [rest_ammo]
      rfl
  · split
    · rw [end_of_day_money]
      show (rest (after_env_update g)).2.state.money = g.state.money
      rw [rest_money]
      rfl
    · rw [maybe_prepare_money]
      dsimp only
      rw [end_of_day_money]
      show (rest (after_env_update g)).2.state.money = g.state.money
      rw [rest_money]
      rfl
  · split
    · rw [end_of_day_distance]
      show (rest (after_env_update g)).2.state.distance = g.state.distance
      rw [rest_distance]
      rfl
    · rw [maybe_prepare_distance]
      dsimp only
      rw [end_of_day_distance]
      show (rest (after_env_update g)).2.state.distance = g.state.distance
      rw [rest_distance]
      rfl
  · split
    · rw [end_of_day_pace]
      show (rest (after_env_update g)).2.state.pace = g.state.pace
      rw [rest_pace]
      rfl
    · rw [maybe_prepare_pace]
      dsimp only
      rw [end_of_day_pace]
      show (rest (after_env_update g)).2.state.pace = g.state.pace
      rw [rest_pace]
      rfl
  · split
    · rw [end_of_day_food]
      show max 0 ((rest (after_env_update g)).2.state.food - max 0 BASE_FOOD_PER_DAY) =
        max 0 (g.state.food - 5)
      rw [rest_food]
      show max 0 (g.state.food - max 0 (5 : ℤ)) = max 0 (g.state.food - 5)
      omega
    · rw [maybe_prepare_food]
      dsimp only
      rw [end_of_day_food]
      show max 0 ((rest (after_env_update g)).2.state.food - max 0 BASE_FOOD_PER_DAY) =
        max 0 (g.state.food - 5)
      rw [rest_food]
      show max 0 (g.state.food - max 0 (5 : ℤ)) = max 0 (g.state.food - 5)
      omega
  · intro hpos
    split
    · rw [end_of_day_health]
      split
      · exfalso
        rename_i hle
        have hc : max 0 ((rest (after_env_update g)).2.state.food -
            max 0 BASE_FOOD_PER_DAY) ≤ 0 := hle
        rw [rest_food] at hc
        have hc2 : max 0 (g.state.food - max 0 (5 : ℤ)) ≤ 0 := hc
        omega
      · show (rest (after_env_update g)).2.state.health =
          min 100 (g.state.health + g.settings.rest_health)
        rw [rest_health_eq]
        rfl
    · rw [maybe_prepare_health]
      dsimp only
      rw [end_of_day_health]
      split
      · exfalso
        rename_i hle
        have hc : max 0 ((rest (after_env_update g)).2.state.food -
            max 0 BASE_FOOD_PER_DAY) ≤ 0 := hle
        rw [rest_food] at hc
        have hc2 : max 0 (g.state.food - max 0 (5 : ℤ)) ≤ 0 := hc
        omega
      · show (rest (after_env_update g)).2.state.health =
          min 100 (g.state.health + g.settings.rest_health)
        rw [rest_health_eq]
        rfl

/-- C10 counterexample: on a game with an open trading post, a rest
day with no random event still clears the post (the 25% next-day
regeneration roll fails), so the action does not change only the
fields listed in the claim. -/
theorem C10_counterexample :
    c10_game.is_over = false ∧
    c10_game.event_chance < c10_game.rng.peekFloat 2 ∧
    c10_game.state.trade_available = true ∧
    (perform_action c10_game "rest" none none none).2.state.trade_available =
      false :=
  ⟨rfl, by decide, rfl, by decide⟩

/-- C10 witness: the amended frame instantiated on the demo game. -/
theorem C10_witness :
    (perform_action demo_game "rest" none none none).2.state.ammo =
      demo_game.state.ammo ∧
    (perform_action demo_game "rest" none none none).2.state.money =
      demo_game.state.money ∧
    (perform_action demo_game "rest" none none none).2.state.distance =
      demo_game.state.distance ∧
    (perform_action demo_game "rest" none none none).2.state.pace =
      demo_game.state.pace ∧
    (perform_action demo_game "rest" none none none).2.state.food =
      max 0 (demo_game.state.food - 5) ∧
    (0 < demo_game.state.food - 5 →
      (perform_action demo_game "rest" none none none).2.state.health =
        min 100 (demo_game.state.health + demo_game.settings.rest_health)) :=
  C10_rest_frame demo_game rfl (by decide)

/-- The `travel` path of `perform_action` on a non-terminal game and a
valid pace: start-of-call mutations, the travel handler, then the
day-finishing pipeline on the ration plus the pace surcharge. -/
theorem perform_action_travel_eq (g : Game) (p : String) (speed : Int)
    (hover : g.is_over = false)
    (hpace : PACE_SPEEDS (py_strip (py_lower p)) = some speed) :
    perform_action g "travel" (some p) none none =
      (let gu := after_env_update g
       let pace_key := py_strip (py_lower p)
       let miles := max 5 (pythonRound
         ((speed : ℚ) * weather_modifier gu * terrain_modifier gu))
       let w := py_lower gu.state.weather
       let t := py_lower gu.state.terrain
       let msg :=
         s!"You travel {miles} miles at a {pace_key} pace through {w} weather and {t} terrain."
       let extra_food :=
         ⌈(BASE_FOOD_PER_DAY : ℚ) * max 0 (PACE_FOOD_MULTIPLIER pace_key - 1)⌉
       let gt := { gu with state := { gu.state with
           distance := gu.state.distance + miles, pace := pace_key } }
       (Except.ok (finish_day gt [msg] (BASE_FOOD_PER_DAY + extra_food)).1,
        (finish_day gt [msg] (BASE_FOOD_PER_DAY + extra_food)).2)) := by
  unfold perform_action action_dispatch after_env_update
  rw [hover]
  have hk : py_strip (py_lower "travel") = "travel" := rfl
  simp only [hk, Bool.false_eq_true, if_false, ite_false, ite_true]
  have h1 : ("travel" = "travel") = True := by simp
  simp only [h1, ite_true, true_or, not_true, if_false, if_true, ite_false]
  dsimp only [Option.getD]
  rw [travel_eq _ _ speed]
  · rfl
  · exact hpace

/-- C7 (amended): every completed `travel` call at a valid pace with
the random-event trigger roll not firing increases distance by exactly
`max 5 (round(speed x weather modifier x terrain modifier))` (the
modifiers of the freshly rolled day), which is at least 5, regardless
of the food stock; and whenever the entry food stock is at least the
base ration 5, food strictly decreases by at least 5.  (With less than
5 food in stock the decrease is clamped at zero stock, so the original
unconditional food claim fails.) -/
theorem C7_travel_effect (g : Game) (p : String) (speed : Int)
    (hover : g.is_over = false)
    (hpace : PACE_SPEEDS (py_strip (py_lower p)) = some speed)
    (hnoev : g.event_chance < g.rng.peekFloat 2) :
    5 ≤ max 5 (pythonRound ((speed : ℚ) *
        weather_modifier (after_env_update g) *
        terrain_modifier (after_env_update g))) ∧
    (perform_action g "travel" (some p) none none).2.state.distance =
      g.state.distance + max 5 (pythonRound ((speed : ℚ) *
        weather_modifier (after_env_update g) *
        terrain_modifier (after_env_update g))) ∧
    (5 ≤ g.state.food →
      (perform_action g "travel" (some p) none none).2.state.food ≤
        g.state.food - 5) := by
  rw [perform_action_travel_eq g p speed hover hpace]
  dsimp only
  unfold finish_day
  dsimp only
  rw [apply_random_event_of_gt]
  · dsimp only
    have hex : (0 : ℤ) ≤ ⌈(BASE_FOOD_PER_DAY : ℚ) *
        max 0 (PACE_FOOD_MULTIPLIER (py_strip (py_lower p)) - 1)⌉ := by
      refine Int.ceil_nonneg (mul_nonneg ?_ (le_max_left 0 _))
      show (0 : ℚ) ≤ ((5 : ℤ) : ℚ)
      norm_num
    refine ⟨le_max_left _ _, ?_, ?_⟩
    · split
      · rw [end_of_day_distance]
        rfl
      · rw [maybe_prepare_distance]
        dsimp only
        rw [end_of_day_distance]
        rfl
    · intro hfood
      split
      · rw [end_of_day_food]
        show max 0 (g.state.food - max 0 ((5 : ℤ) +
            ⌈(BASE_FOOD_PER_DAY : ℚ) *
              max 0 (PACE_FOOD_MULTIPLIER (py_strip (py_lower p)) - 1)⌉)) ≤
          g.state.food - 5
        omega
      · rw [maybe_prepare_food]
        dsimp only
        rw [end_of_day_food]
        show max 0 (g.state.food - max 0 ((5 : ℤ) +
            ⌈(BASE_FOOD_PER_DAY : ℚ) *
              max 0 (PACE_FOOD_MULTIPLIER (py_strip (py_lower p)) - 1)⌉)) ≤
          g.state.food - 5
        omega
  · exact hnoev

/-- C7 counterexample: travelling with an empty food store completes
but leaves food at 0 - it does not strictly decrease by the ration. -/
theorem C7_counterexample :
    c7_game.is_over = false ∧ c7_game.state.food = 0 ∧
    is_ok (perform_action c7_game "travel" (some "steady") none none).1 = true ∧
    (perform_action c7_game "travel" (some "steady") none none).2.state.food =
      0 :=
  ⟨rfl, rfl, by decide, by decide⟩

/-- C7 witness: the amended travel effect instantiated on the demo
game at the steady pace. -/
theorem C7_witness :
    5 ≤ max 5 (pythonRound ((18 : ℚ) *
        weather_modifier (after_env_update demo_game) *
        terrain_modifier (after_env_update demo_game))) ∧
    (perform_action demo_game "travel" (some "steady") none none).2.state.distance =
      demo_game.state.distance + max 5 (pythonRound ((18 : ℚ) *
        weather_modifier (after_env_update demo_game) *
        terrain_modifier (after_env_update demo_game))) ∧
    (5 ≤ demo_game.state.food →
      (perform_action demo_game "travel" (some "steady") none none).2.state.food ≤
        demo_game.state.food - 5) :=
  C7_travel_effect demo_game "steady" 18 rfl rfl (by decide)

/-- C9 witness: two copies of the banker game from the all-zero seed
agree on a two-day script. -/
theorem C9_witness :
    runGame demo_init
        [⟨"travel", some "steady", none, none⟩, ⟨"rest", none, none, none⟩] =
      runGame demo_init
        [⟨"travel", some "steady", none, none⟩, ⟨"rest", none, none, none⟩] :=
  C9_determinism "Ann" "banker" Difficulty.normal (fun _ => 0)
    [⟨"travel", some "steady", none, none⟩, ⟨"rest", none, none, none⟩]
    demo_init demo_init rfl rfl

end OregonTrail
